import Mathlib

/-!
Shallow embedding of the distkv in-memory key-value store
(src/include/storage.h, src/src/storage.cpp, src/src/server.cpp,
src/src/protocol.cpp, src/src/persistence.cpp).

The C++ engine calls `std::time(nullptr)` inside `Value::is_expired`,
`Storage::expire` and `Storage::ttl`; the embedding passes the wall clock
as an explicit `now : Int` parameter to every operation that reads it.
`std::unordered_map` is modelled as an association list with unique keys;
`data_[key] = val` becomes replace-or-append, `erase` removes the (unique)
matching entry, and mutation through a `shared_ptr` into the map becomes
an in-place update of the matching entry.
-/

namespace DistKV

/-- Embeds `enum class ValueType` from storage.h. -/
inductive ValueType
  | STRING
  | LIST
  | SET
deriving DecidableEq, Repr

/-- The erased payload `std::shared_ptr<void> data` of a `Value`, made a sum
type: every code path stores a `std::string`, `std::vector<std::string>` or
`std::unordered_set<std::string>` consistent with the tag.  The unordered
set is modelled as a duplicate-free list of members. -/
inductive Payload
  | str : String → Payload
  | list : List String → Payload
  | set : List String → Payload
deriving DecidableEq, Repr

/-- The variant tag carried next to the payload (`Value::type`). -/
def Payload.typeOf : Payload → ValueType
  | .str _ => .STRING
  | .list _ => .LIST
  | .set _ => .SET

/-- Embeds `struct Value` from storage.h: tagged payload plus absolute expiration
instant, `-1` meaning no expiry. -/
structure Value where
  payload : Payload
  expires_at : Int
deriving DecidableEq, Repr

def Value.type (v : Value) : ValueType := v.payload.typeOf

/-- Embeds `Value::is_expired`: false when `expires_at == -1`, otherwise
`std::time(nullptr) > expires_at` (a strict comparison). -/
def isExpired (now : Int) (v : Value) : Bool :=
  if v.expires_at = -1 then false else decide (now > v.expires_at)

/-- The keyspace `data_ : unordered_map<string, shared_ptr<Value>>`,
as an association list with one entry per key. -/
abbrev Store : Type := List (String × Value)

/-- Embeds `data_.find(key)`: the value at `key`, if present. -/
def findVal : Store → String → Option Value
  | [], _ => none
  | (k, v) :: rest, key => if k = key then some v else findVal rest key

/-- Embeds `data_[key] = val`: replace the existing entry or append a new one. -/
def insertVal : Store → String → Value → Store
  | [], key, val => [(key, val)]
  | (k, v) :: rest, key, val =>
      if k = key then (k, val) :: rest else (k, v) :: insertVal rest key val

/-- Embeds `data_.erase(key)` / `data_.erase(it)`: drop the matching entry. -/
def eraseVal : Store → String → Store
  | [], _ => []
  | (k, v) :: rest, key => if k = key then rest else (k, v) :: eraseVal rest key

/-- Mutation through the `shared_ptr<Value>` held in the map: rewrite the
entry at `key` in place. -/
def updateVal : Store → String → (Value → Value) → Store
  | [], _, _ => []
  | (k, v) :: rest, key, f =>
      if k = key then (k, f v) :: rest else (k, v) :: updateVal rest key f

/-- Embeds `Storage::cleanup_expired`: re-find the key and erase it only if it is
still expired (the double check after the lock upgrade). -/
def cleanup_expired (st : Store) (k : String) (now : Int) : Store :=
  match findVal st k with
  | none => st
  | some v => if isExpired now v then eraseVal st k else st

/-- Embeds `Storage::set`: unconditionally store a fresh String value; the C++
function always returns `true`. -/
def set (st : Store) (k : String) (value : String) : Store :=
  insertVal st k ⟨.str value, -1⟩

/-- Embeds `Storage::get`: miss on absent key; on an expired value, clean it up and
miss; on a non-String value, miss; otherwise return the payload.  The second
component is the keyspace after the call. -/
def get (st : Store) (k : String) (now : Int) : Option String × Store :=
  match findVal st k with
  | none => (none, st)
  | some v =>
      if isExpired now v then (none, cleanup_expired st k now)
      else
        match v.payload with
        | .str s => (some s, st)
        | _ => (none, st)

/-- Embeds `Storage::del`: erase and report whether a key was present. -/
def del (st : Store) (k : String) : Bool × Store :=
  match findVal st k with
  | none => (false, st)
  | some _ => (true, eraseVal st k)

/-- Embeds `Storage::exists` (named `existsKey` because `exists` is reserved in
Lean): true iff the key is present and not expired; expired entries are
cleaned up. -/
def existsKey (st : Store) (k : String) (now : Int) : Bool × Store :=
  match findVal st k with
  | none => (false, st)
  | some v =>
      if isExpired now v then (false, cleanup_expired st k now)
      else (true, st)

/-- Embeds `Storage::expire`: on a present key (expired or not — the code never
checks), set `expires_at = time(nullptr) + seconds` and return true. -/
def expire (st : Store) (k : String) (seconds : Int) (now : Int) : Bool × Store :=
  match findVal st k with
  | none => (false, st)
  | some _ => (true, updateVal st k (fun v => { v with expires_at := now + seconds }))

/-- Embeds `Storage::ttl`: `-2` for missing or expired, `-1` for no expiry,
otherwise the remaining seconds when positive and `-2` when not.  The C++
function never removes the entry. -/
def ttl (st : Store) (k : String) (now : Int) : Int :=
  match findVal st k with
  | none => -2
  | some v =>
      if isExpired now v then -2
      else if v.expires_at = -1 then -1
      else
        let remaining := v.expires_at - now
        if remaining > 0 then remaining else -2

/-- The empty container built by `Storage::get_or_create` for each variant. -/
def emptyPayload : ValueType → Payload
  | .STRING => .str ""
  | .LIST => .list []
  | .SET => .set []

/-- Embeds `Storage::get_or_create`: on a missing key insert a fresh empty
container of the requested variant; on a present key of another variant
return null.  No expiration check is performed. -/
def get_or_create (st : Store) (k : String) (ty : ValueType) : Option Value × Store :=
  match findVal st k with
  | none =>
      let val : Value := ⟨emptyPayload ty, -1⟩
      (some val, insertVal st k val)
  | some v => if v.type = ty then (some v, st) else (none, st)

/-- Embeds `Storage::lpush`: create-or-fetch the list, fail on wrong type,
otherwise prepend. -/
def lpush (st : Store) (k : String) (value : String) : Bool × Store :=
  match get_or_create st k .LIST with
  | (none, st') => (false, st')
  | (some val, st') =>
      match val.payload with
      | .list xs =>
          (true, updateVal st' k (fun v => { v with payload := .list (value :: xs) }))
      | _ => (false, st')

/-- Embeds `Storage::rpush`: create-or-fetch the list, fail on wrong type,
otherwise append. -/
def rpush (st : Store) (k : String) (value : String) : Bool × Store :=
  match get_or_create st k .LIST with
  | (none, st') => (false, st')
  | (some val, st') =>
      match val.payload with
      | .list xs =>
          (true, updateVal st' k (fun v => { v with payload := .list (xs ++ [value]) }))
      | _ => (false, st')

/-- Embeds `Storage::lpop`: missing or non-list or empty list yields no value;
otherwise remove and return the head.  No expiration check. -/
def lpop (st : Store) (k : String) : Option String × Store :=
  match findVal st k with
  | none => (none, st)
  | some v =>
      match v.payload with
      | .list [] => (none, st)
      | .list (x :: xs) =>
          (some x, updateVal st k (fun w => { w with payload := .list xs }))
      | _ => (none, st)

/-- Embeds `Storage::rpop`: missing or non-list or empty list yields no value;
otherwise remove and return the last element.  No expiration check. -/
def rpop (st : Store) (k : String) : Option String × Store :=
  match findVal st k with
  | none => (none, st)
  | some v =>
      match v.payload with
      | .list xs =>
          if h : xs = [] then (none, st)
          else
            (some (xs.getLast h),
             updateVal st k (fun w => { w with payload := .list xs.dropLast }))
      | _ => (none, st)

/-- Embeds `Storage::llen`: list length, `0` on missing or non-list. -/
def llen (st : Store) (k : String) : Int :=
  match findVal st k with
  | none => 0
  | some v =>
      match v.payload with
      | .list xs => (xs.length : Int)
      | _ => 0

/-- Embeds `Storage::lrange`: Redis-style index adjustment as written in the
source — add the size to negative indices, clamp both into
`[0, size-1]`, empty result when `start > stop`, otherwise the elements at
indices `start .. stop` inclusive (the C++ builds
`vector(begin+start, begin+stop+1)`; the slice is modelled with the total
`drop`/`take`). -/
def lrange (st : Store) (k : String) (start stop : Int) : Option (List String) :=
  match findVal st k with
  | none => none
  | some v =>
      match v.payload with
      | .list xs =>
          let size : Int := xs.length
          let start1 := if start < 0 then start + size else start
          let stop1 := if stop < 0 then stop + size else stop
          let start2 := max 0 (min start1 (size - 1))
          let stop2 := max 0 (min stop1 (size - 1))
          if start2 > stop2 then some []
          else some ((xs.drop start2.toNat).take (stop2 + 1 - start2).toNat)
      | _ => none

/-- Whether the iterator pair `begin + start2`, `begin + stop2 + 1` that
`Storage::lrange` hands to the `std::vector` range constructor stays inside
a vector of length `len`: either the `start > stop` early return fires, or
`stop2 + 1 ≤ len` must hold (`start2 ≥ 0` holds by the clamping).  The
index arithmetic is copied verbatim from `Storage::lrange`. -/
def lrangeSliceInBounds (len : Nat) (start stop : Int) : Bool :=
  let size : Int := len
  let start1 := if start < 0 then start + size else start
  let stop1 := if stop < 0 then stop + size else stop
  let start2 := max 0 (min start1 (size - 1))
  let stop2 := max 0 (min stop1 (size - 1))
  if start2 > stop2 then true
  else decide (stop2 + 1 ≤ size)

/-- Embeds `Storage::sadd`: create-or-fetch the set, fail on wrong type, insert
and report whether the member was new. -/
def sadd (st : Store) (k : String) (member : String) : Bool × Store :=
  match get_or_create st k .SET with
  | (none, st') => (false, st')
  | (some val, st') =>
      match val.payload with
      | .set xs =>
          if xs.contains member then (false, st')
          else (true, updateVal st' k (fun v => { v with payload := .set (xs ++ [member]) }))
      | _ => (false, st')

/-- Embeds `Storage::srem`: missing or non-set fails; otherwise erase and report
whether the member was present.  No expiration check. -/
def srem (st : Store) (k : String) (member : String) : Bool × Store :=
  match findVal st k with
  | none => (false, st)
  | some v =>
      match v.payload with
      | .set xs =>
          if xs.contains member then
            (true, updateVal st k (fun w => { w with payload := .set (xs.erase member) }))
          else (false, st)
      | _ => (false, st)

/-- Embeds `Storage::sismember`: membership test, false on missing or non-set.
No expiration check. -/
def sismember (st : Store) (k : String) (member : String) : Bool :=
  match findVal st k with
  | none => false
  | some v =>
      match v.payload with
      | .set xs => xs.contains member
      | _ => false

/-- Embeds `Storage::smembers`: the whole membership, or no value on missing or
non-set.  No expiration check. -/
def smembers (st : Store) (k : String) : Option (List String) :=
  match findVal st k with
  | none => none
  | some v =>
      match v.payload with
      | .set xs => some xs
      | _ => none

/-- Embeds `Storage::scard`: cardinality, `0` on missing or non-set.  No
expiration check. -/
def scard (st : Store) (k : String) : Int :=
  match findVal st k with
  | none => 0
  | some v =>
      match v.payload with
      | .set xs => (xs.length : Int)
      | _ => 0

/-- Embeds `Storage::dbsize`: `data_.size()` — the raw entry count, with no
expiration filter. -/
def dbsize (st : Store) : Nat := st.length

/-- Embeds `Storage::keys`: the keys whose values are not expired, in map order. -/
def keys (st : Store) (now : Int) : List String :=
  (st.filter (fun e => !(isExpired now e.2))).map (fun e => e.1)

/-- Embeds `enum class CommandType` from protocol.h. -/
inductive CommandType
  | SET
  | GET
  | DEL
  | EXISTS
  | EXPIRE
  | TTL
  | KEYS
  | DBSIZE
  | LPUSH
  | RPUSH
  | LPOP
  | RPOP
  | LRANGE
  | LLEN
  | SADD
  | SREM
  | SISMEMBER
  | SMEMBERS
  | SCARD
  | PING
  | QUIT
  | UNKNOWN
deriving DecidableEq, Repr

/-- Embeds `enum class StatusCode` from protocol.h. -/
inductive StatusCode
  | OK
  | ERROR
  | NOT_FOUND
  | WRONG_TYPE
  | INVALID_ARGS
deriving DecidableEq, Repr

/-- Embeds `struct Request` from protocol.h. -/
structure Request where
  command : CommandType
  args : List String
deriving DecidableEq, Repr

/-- Embeds `struct Response` from protocol.h: `Response(s)` has empty `data`,
`Response(s, str)` has a one-element `data`, `Response(s, vec)` carries the
vector as is. -/
structure Response where
  status : StatusCode
  data : List String
deriving DecidableEq, Repr

/-- Embeds `std::stoi` as used on command arguments (which are whitespace-free
tokens): an optional sign, then the longest run of decimal digits, which
must be non-empty; a value outside the `int` range throws, modelled as
`none`. -/
def cppStoi (s : String) : Option Int :=
  let cs := s.data
  let signed : Int × List Char :=
    match cs with
    | '-' :: t => (-1, t)
    | '+' :: t => (1, t)
    | _ => (1, cs)
  let ds := signed.2.takeWhile Char.isDigit
  if ds.isEmpty then none
  else
    let n : Nat := ds.foldl (fun a c => a * 10 + (c.toNat - 48)) 0
    let v : Int := signed.1 * n
    if v < -2147483648 ∨ 2147483647 < v then none else some v

/-- Embeds `Server::execute_command` from server.cpp: dispatch a parsed request
against the storage, producing the response and the storage afterwards.
The `args.size() != n` arity guards are rendered as list patterns of the
exact length; `std::stoi` failures take the `catch` branch. -/
def execute_command (st : Store) (now : Int) (req : Request) : Response × Store :=
  match req.command with
  | .PING => (⟨.OK, ["PONG"]⟩, st)
  | .SET =>
      match req.args with
      | [k, v] => (⟨.OK, []⟩, set st k v)
      | _ => (⟨.INVALID_ARGS, []⟩, st)
  | .GET =>
      match req.args with
      | [k] =>
          match get st k now with
          | (some v, st') => (⟨.OK, [v]⟩, st')
          | (none, st') => (⟨.NOT_FOUND, []⟩, st')
      | _ => (⟨.INVALID_ARGS, []⟩, st)
  | .DEL =>
      match req.args with
      | [k] =>
          let r := del st k
          (⟨.OK, [if r.1 then "1" else "0"]⟩, r.2)
      | _ => (⟨.INVALID_ARGS, []⟩, st)
  | .EXISTS =>
      match req.args with
      | [k] =>
          let r := existsKey st k now
          (⟨.OK, [if r.1 then "1" else "0"]⟩, r.2)
      | _ => (⟨.INVALID_ARGS, []⟩, st)
  | .EXPIRE =>
      match req.args with
      | [k, s] =>
          match cppStoi s with
          | none => (⟨.ERROR, ["invalid timeout value"]⟩, st)
          | some seconds =>
              let r := expire st k seconds now
              (⟨.OK, [if r.1 then "1" else "0"]⟩, r.2)
      | _ => (⟨.INVALID_ARGS, []⟩, st)
  | .TTL =>
      match req.args with
      | [k] => (⟨.OK, [toString (ttl st k now)]⟩, st)
      | _ => (⟨.INVALID_ARGS, []⟩, st)
  | .KEYS => (⟨.OK, keys st now⟩, st)
  | .DBSIZE => (⟨.OK, [toString (dbsize st)]⟩, st)
  | .LPUSH =>
      match req.args with
      | [k, v] =>
          let r := lpush st k v
          if r.1 then (⟨.OK, [toString (llen r.2 k)]⟩, r.2)
          else (⟨.WRONG_TYPE, []⟩, r.2)
      | _ => (⟨.INVALID_ARGS, []⟩, st)
  | .RPUSH =>
      match req.args with
      | [k, v] =>
          let r := rpush st k v
          if r.1 then (⟨.OK, [toString (llen r.2 k)]⟩, r.2)
          else (⟨.WRONG_TYPE, []⟩, r.2)
      | _ => (⟨.INVALID_ARGS, []⟩, st)
  | .LPOP =>
      match req.args with
      | [k] =>
          match lpop st k with
          | (some v, st') => (⟨.OK, [v]⟩, st')
          | (none, st') => (⟨.NOT_FOUND, []⟩, st')
      | _ => (⟨.INVALID_ARGS, []⟩, st)
  | .RPOP =>
      match req.args with
      | [k] =>
          match rpop st k with
          | (some v, st') => (⟨.OK, [v]⟩, st')
          | (none, st') => (⟨.NOT_FOUND, []⟩, st')
      | _ => (⟨.INVALID_ARGS, []⟩, st)
  | .LRANGE =>
      match req.args with
      | [k, a, b] =>
          match cppStoi a with
          | none => (⟨.ERROR, ["invalid index"]⟩, st)
          | some start =>
              match cppStoi b with
              | none => (⟨.ERROR, ["invalid index"]⟩, st)
              | some stop =>
                  match lrange st k start stop with
                  | some l => (⟨.OK, l⟩, st)
                  | none => (⟨.NOT_FOUND, []⟩, st)
      | _ => (⟨.INVALID_ARGS, []⟩, st)
  | .LLEN =>
      match req.args with
      | [k] => (⟨.OK, [toString (llen st k)]⟩, st)
      | _ => (⟨.INVALID_ARGS, []⟩, st)
  | .SADD =>
      match req.args with
      | [k, m] =>
          let r := sadd st k m
          (⟨.OK, [if r.1 then "1" else "0"]⟩, r.2)
      | _ => (⟨.INVALID_ARGS, []⟩, st)
  | .SREM =>
      match req.args with
      | [k, m] =>
          let r := srem st k m
          (⟨.OK, [if r.1 then "1" else "0"]⟩, r.2)
      | _ => (⟨.INVALID_ARGS, []⟩, st)
  | .SISMEMBER =>
      match req.args with
      | [k, m] => (⟨.OK, [if sismember st k m then "1" else "0"]⟩, st)
      | _ => (⟨.INVALID_ARGS, []⟩, st)
  | .SMEMBERS =>
      match req.args with
      | [k] =>
          match smembers st k with
          | some ms => (⟨.OK, ms⟩, st)
          | none => (⟨.NOT_FOUND, []⟩, st)
      | _ => (⟨.INVALID_ARGS, []⟩, st)
  | .SCARD =>
      match req.args with
      | [k] => (⟨.OK, [toString (scard st k)]⟩, st)
      | _ => (⟨.INVALID_ARGS, []⟩, st)
  | .QUIT => (⟨.OK, ["Goodbye"]⟩, st)
  | .UNKNOWN => (⟨.ERROR, ["unknown command"]⟩, st)

/-- The commands whose `case` in `Server::execute_command` begins with an
`args.size() != n` guard and the `n` it checks; `PING`, `QUIT`, `KEYS`,
`DBSIZE` and the unknown-command branch have no such guard. -/
def checkedArity : CommandType → Option Nat
  | .SET => some 2
  | .GET => some 1
  | .DEL => some 1
  | .EXISTS => some 1
  | .EXPIRE => some 2
  | .TTL => some 1
  | .LPUSH => some 2
  | .RPUSH => some 2
  | .LPOP => some 1
  | .RPOP => some 1
  | .LRANGE => some 3
  | .LLEN => some 1
  | .SADD => some 2
  | .SREM => some 2
  | .SISMEMBER => some 2
  | .SMEMBERS => some 1
  | .SCARD => some 1
  | _ => none

/-- The `$<len>\r\n<item>\r\n` bulk-string framing emitted by
`Protocol::serialize_response`; `std::string::length()` is a byte count. -/
def bulkString (s : String) : String :=
  "$" ++ toString s.utf8ByteSize ++ "\r\n" ++ s ++ "\r\n"

/-- Embeds `Protocol::serialize_response` from protocol.cpp.  For `OK` the shape
of `data` picks the framing: empty data gives `+OK`, a single element gives
one bulk string, two or more give the `*<n>` array form. -/
def serialize_response (r : Response) : String :=
  match r.status with
  | .OK =>
      match r.data with
      | [] => "+OK\r\n"
      | [s] => bulkString s
      | items => "*" ++ toString items.length ++ "\r\n" ++ String.join (items.map bulkString)
  | .NOT_FOUND => "$-1\r\n"
  | .ERROR =>
      "-ERR " ++ (match r.data with
                  | [] => "unknown error"
                  | m :: _ => m) ++ "\r\n"
  | .WRONG_TYPE => "-WRONGTYPE Operation against a key holding the wrong kind of value\r\n"
  | .INVALID_ARGS => "-ERR wrong number of arguments\r\n"

/-- The encoding the specification's response table prescribes for an
OK-with-array response: `*<n>\r\n` then `$<len>\r\n<item>\r\n` for each
item, all lengths byte lengths.  Written from the spec's words, to be
compared with `serialize_response`. -/
def specArrayEncoding (v : List String) : String :=
  "*" ++ toString v.length ++ "\r\n" ++
    String.join (v.map (fun s => "$" ++ toString s.utf8ByteSize ++ "\r\n" ++ s ++ "\r\n"))

/-- The on-disk snapshot, at the granularity the claims need: the entry
count written first by `Persistence::save_snapshot` and the serialized
entries that follow. -/
structure SnapshotFile where
  count : Nat
  entries : List (String × Value)
deriving DecidableEq, Repr

/-- Embeds `Persistence::save_snapshot`: writes `snapshot.size()` as the count,
then each non-expired entry (expired entries are skipped after the count
was already written). -/
def save_snapshot (st : Store) (now : Int) : SnapshotFile :=
  ⟨st.length, st.filter (fun e => !(isExpired now e.2))⟩

/-- One iteration of the restore loop in `Persistence::load_snapshot`:
String values are re-inserted via `Storage::set` and, when they carried an
expiry whose remaining seconds are still positive, re-expired via
`Storage::expire`; List and Set values fall through the
`if (value->type == ValueType::STRING)` test and are dropped. -/
def load_entry (st : Store) (now : Int) (k : String) (v : Value) : Store :=
  match v.payload with
  | .str s =>
      let st1 := set st k s
      if v.expires_at ≠ -1 then
        let remaining := v.expires_at - now
        if remaining > 0 then (expire st1 k remaining now).2 else st1
      else st1
  | _ => st

/-- Embeds `Persistence::load_snapshot`: clear the storage, then read `count`
entries back.  The C++ loop reads exactly `count` entries from the stream;
when the file holds fewer (save skips expired entries after writing the
full count) the extra reads fail — the embedding processes the entries
actually present, capped at `count`. -/
def load_snapshot (f : SnapshotFile) (now : Int) : Store :=
  (f.entries.take f.count).foldl (fun st e => load_entry st now e.1 e.2) []

/-- A keyspace holding one Set value whose expiration instant 5 lies before
the observation time 10. -/
def expiredSetStore : Store := [("s", ⟨.set ["x"], 5⟩)]

/-- A keyspace holding one List value whose expiration instant 5 lies
before the observation time 10. -/
def expiredListStore : Store := [("l", ⟨.list ["old"], 5⟩)]

/-- A keyspace holding one expired String value. -/
def expiredStrStore : Store := [("k", ⟨.str "v", 5⟩)]

/-- A keyspace holding one String value with no expiry. -/
def noExpiryStore : Store := [("k", ⟨.str "v", -1⟩)]

/-- A keyspace holding one List value with zero elements (reachable by
`RPUSH e a` followed by `LPOP e`). -/
def emptyListStore : Store := [("e", ⟨.list [], -1⟩)]

/-- A keyspace holding one non-expired List value. -/
def listOnlyStore : Store := [("l", ⟨.list ["a"], -1⟩)]

/-! Helper lemmas about the association-list keyspace. -/

theorem findVal_insertVal_self (st : Store) (k : String) (v : Value) :
    findVal (insertVal st k v) k = some v := by
  induction st with
  | nil => simp [insertVal, findVal]
  | cons e rest ih =>
      obtain ⟨k', v'⟩ := e
      by_cases h : k' = k
      · simp [insertVal, findVal, h]
      · simp [insertVal, findVal, h, ih]

theorem findVal_updateVal_self (st : Store) (k : String) (f : Value → Value) :
    findVal (updateVal st k f) k = (findVal st k).map f := by
  induction st with
  | nil => simp [updateVal, findVal]
  | cons e rest ih =>
      obtain ⟨k', v'⟩ := e
      by_cases h : k' = k
      · simp [updateVal, findVal, h]
      · simp [updateVal, findVal, h, ih]

/-- In a duplicate-free keyspace, the only entry of `updateVal st k f` with
key `k` carries the updated value. -/
theorem mem_updateVal_unique (st : Store) (k : String) (f : Value → Value) (v w : Value)
    (hnd : (st.map Prod.fst).Nodup) (hfind : findVal st k = some v)
    (hmem : (k, w) ∈ updateVal st k f) : w = f v := by
  induction st with
  | nil => simp [findVal] at hfind
  | cons e rest ih =>
      obtain ⟨k', v'⟩ := e
      simp only [List.map_cons, List.nodup_cons] at hnd
      by_cases h : k' = k
      · subst h
        simp only [findVal, if_true, eq_self_iff_true, Option.some.injEq] at hfind
        subst hfind
        simp only [updateVal, if_true, eq_self_iff_true, List.mem_cons] at hmem
        rcases hmem with hmem | hmem
        · exact (Prod.mk.injEq _ _ _ _ ▸ hmem).2
        · exact absurd (List.mem_map.2 ⟨(k', w), hmem, rfl⟩) hnd.1
      · simp only [findVal, if_neg h] at hfind
        simp only [updateVal, if_neg h, List.mem_cons] at hmem
        rcases hmem with hmem | hmem
        · exact absurd (congrArg Prod.fst hmem).symm h
        · exact ih hnd.2 hfind hmem

/-- C3: `set(k,v)` then `get(k)` returns exactly `v`, and `set` replaces
whatever was at `k` — whatever the prior variant or expiry — with a fresh
String value whose expiration is cleared, so `ttl(k)` afterwards is `-1`
at every observation time. -/
theorem set_then_get_returns_value (st : Store) (k v : String) (now now' : Int) :
    (get (set st k v) k now).1 = some v ∧
    findVal (set st k v) k = some ⟨.str v, -1⟩ ∧
    ttl (set st k v) k now' = -1 := by
  have hfind : findVal (set st k v) k = some ⟨.str v, -1⟩ :=
    findVal_insertVal_self st k _
  refine ⟨?_, hfind, ?_⟩
  · simp [get, hfind, isExpired]
  · simp [ttl, hfind, isExpired]

/-- C4: `LPUSH` (likewise `RPUSH` and `SADD`) on a key holding a
non-expired String value fails with the wrong-type outcome, leaves the
keyspace completely unchanged, the dispatcher answers `WRONGTYPE`, and a
subsequent `GET` still returns the original string. -/
theorem wrong_type_push_preserves_value (st : Store) (k s v : String) (e now : Int)
    (hfind : findVal st k = some ⟨.str s, e⟩)
    (hexp : isExpired now ⟨.str s, e⟩ = false) :
    lpush st k v = (false, st) ∧
    rpush st k v = (false, st) ∧
    sadd st k v = (false, st) ∧
    execute_command st now ⟨.LPUSH, [k, v]⟩ = (⟨.WRONG_TYPE, []⟩, st) ∧
    execute_command st now ⟨.RPUSH, [k, v]⟩ = (⟨.WRONG_TYPE, []⟩, st) ∧
    (get st k now).1 = some s := by
  have hgocL : get_or_create st k .LIST = (none, st) := by
    simp [get_or_create, hfind, Value.type, Payload.typeOf]
  have hgocS : get_or_create st k .SET = (none, st) := by
    simp [get_or_create, hfind, Value.type, Payload.typeOf]
  have hl : lpush st k v = (false, st) := by simp [lpush, hgocL]
  have hr : rpush st k v = (false, st) := by simp [rpush, hgocL]
  refine ⟨hl, hr, ?_, ?_, ?_, ?_⟩
  · simp [sadd, hgocS]
  · simp [execute_command, hl]
  · simp [execute_command, hr]
  · simp [get, hfind, hexp]

/-- Witness for `wrong_type_push_preserves_value` at the concrete keyspace
`[("k", String "old")]`. -/
theorem wrong_type_push_preserves_value_witness :
    lpush [("k", Value.mk (.str "old") (-1))] "k" "z" =
      (false, [("k", Value.mk (.str "old") (-1))]) ∧
    rpush [("k", Value.mk (.str "old") (-1))] "k" "z" =
      (false, [("k", Value.mk (.str "old") (-1))]) ∧
    sadd [("k", Value.mk (.str "old") (-1))] "k" "z" =
      (false, [("k", Value.mk (.str "old") (-1))]) ∧
    execute_command [("k", Value.mk (.str "old") (-1))] 0 ⟨.LPUSH, ["k", "z"]⟩ =
      (⟨.WRONG_TYPE, []⟩, [("k", Value.mk (.str "old") (-1))]) ∧
    execute_command [("k", Value.mk (.str "old") (-1))] 0 ⟨.RPUSH, ["k", "z"]⟩ =
      (⟨.WRONG_TYPE, []⟩, [("k", Value.mk (.str "old") (-1))]) ∧
    (get [("k", Value.mk (.str "old") (-1))] "k" 0).1 = some "old" :=
  wrong_type_push_preserves_value [("k", Value.mk (.str "old") (-1))] "k" "old" "z"
    (-1) 0 (by decide) (by decide)

/-- C10: popping the single element of a one-element list returns it and
leaves the key present with an empty List value: same variant, same
expiration, `exists` still true, `llen` now `0` — for `lpop` and `rpop`
alike. -/
theorem pop_singleton_leaves_empty_list (st : Store) (k x : String) (e now : Int)
    (hfind : findVal st k = some ⟨.list [x], e⟩)
    (hexp : isExpired now ⟨.list [x], e⟩ = false) :
    (lpop st k).1 = some x ∧
    findVal (lpop st k).2 k = some ⟨.list [], e⟩ ∧
    (existsKey (lpop st k).2 k now).1 = true ∧
    llen (lpop st k).2 k = 0 ∧
    (rpop st k).1 = some x ∧
    findVal (rpop st k).2 k = some ⟨.list [], e⟩ ∧
    (existsKey (rpop st k).2 k now).1 = true ∧
    llen (rpop st k).2 k = 0 := by
  have hexp' : isExpired now ⟨.list [], e⟩ = false := by
    simpa [isExpired] using hexp
  have hlpop : lpop st k =
      (some x, updateVal st k (fun w => { w with payload := .list [] })) := by
    simp [lpop, hfind]
  have hrpop : rpop st k =
      (some x, updateVal st k (fun w => { w with payload := .list [] })) := by
    simp [rpop, hfind]
  have hfind' :
      findVal (updateVal st k (fun w => { w with payload := Payload.list [] })) k =
        some ⟨.list [], e⟩ := by
    rw [findVal_updateVal_self, hfind]
    rfl
  refine ⟨by simp [hlpop], ?_, ?_, ?_, by simp [hrpop], ?_, ?_, ?_⟩
  · simpa [hlpop] using hfind'
  · simp [existsKey, hlpop, hfind', hexp']
  · simp [llen, hlpop, hfind']
  · simpa [hrpop] using hfind'
  · simp [existsKey, hrpop, hfind', hexp']
  · simp [llen, hrpop, hfind']

/-- Witness for `pop_singleton_leaves_empty_list` at the concrete keyspace
`[("q", List ["only"])]`. -/
theorem pop_singleton_leaves_empty_list_witness :
    (lpop [("q", Value.mk (.list ["only"]) (-1))] "q").1 = some "only" ∧
    findVal (lpop [("q", Value.mk (.list ["only"]) (-1))] "q").2 "q" =
      some ⟨.list [], -1⟩ ∧
    (existsKey (lpop [("q", Value.mk (.list ["only"]) (-1))] "q").2 "q" 0).1 = true ∧
    llen (lpop [("q", Value.mk (.list ["only"]) (-1))] "q").2 "q" = 0 ∧
    (rpop [("q", Value.mk (.list ["only"]) (-1))] "q").1 = some "only" ∧
    findVal (rpop [("q", Value.mk (.list ["only"]) (-1))] "q").2 "q" =
      some ⟨.list [], -1⟩ ∧
    (existsKey (rpop [("q", Value.mk (.list ["only"]) (-1))] "q").2 "q" 0).1 = true ∧
    llen (rpop [("q", Value.mk (.list ["only"]) (-1))] "q").2 "q" = 0 :=
  pop_singleton_leaves_empty_list [("q", Value.mk (.list ["only"]) (-1))] "q" "only"
    (-1) 0 (by decide) (by decide)

/-- C1: the code violates lazy expiration on most paths.  At observation
time 10, the Set entry at "s" (expired at 5) is still served whole by
`smembers`, `sismember` and `scard`, still counted by `dbsize`, and a
typed write (`lpush`) on the expired List entry at "l" mutates the stale
container in place — keeping its stale expiration — instead of treating
the key as absent. -/
theorem expired_entries_served_and_mutated :
    isExpired 10 ⟨.set ["x"], 5⟩ = true ∧
    smembers expiredSetStore "s" = some ["x"] ∧
    sismember expiredSetStore "s" "x" = true ∧
    scard expiredSetStore "s" = 1 ∧
    dbsize expiredSetStore = 1 ∧
    isExpired 10 ⟨.list ["old"], 5⟩ = true ∧
    lpush expiredListStore "l" "new" =
      (true, [("l", ⟨.list ["new", "old"], 5⟩)]) := by
  decide

/-- C2: the snapshot round-trip loses every non-String value.  The
keyspace `[("l", List ["a"])]` contains no expired entry, yet
`load_snapshot (save_snapshot S)` comes back empty, because
`Persistence::load_snapshot` restores only `ValueType::STRING` entries. -/
theorem snapshot_roundtrip_drops_list_values :
    List.filter (fun e => !(isExpired 0 e.2)) listOnlyStore = listOnlyStore ∧
    save_snapshot listOnlyStore 0 = ⟨1, listOnlyStore⟩ ∧
    load_snapshot (save_snapshot listOnlyStore 0) 0 = ([] : Store) := by
  decide

/-- C5 counterexample: a keyspace whose single entry expired at 5, observed
at 10: `keys` is empty but `dbsize` still reports 1, so `dbsize` does not
equal the number of non-expired keys. -/
theorem dbsize_counts_expired_keys :
    isExpired 10 ⟨.str "v", 5⟩ = true ∧
    dbsize expiredStrStore = 1 ∧
    keys expiredStrStore 10 = [] ∧
    dbsize expiredStrStore ≠ (keys expiredStrStore 10).length := by
  decide

/-- C5 amended: `keys()` returns exactly the non-expired keys — a key is in
`keys()` if and only if the keyspace has a non-expired entry at it;
`dbsize()` is the raw entry count including expired entries, so it bounds
`keys().length` from above and equals it exactly when no entry is
expired. -/
theorem keys_nonexpired_dbsize_raw_count (st : Store) (now : Int) :
    (∀ k, k ∈ keys st now ↔ ∃ v, (k, v) ∈ st ∧ isExpired now v = false) ∧
    (keys st now).length ≤ dbsize st ∧
    ((keys st now).length = dbsize st ↔ ∀ e ∈ st, isExpired now e.2 = false) := by
  refine ⟨?_, ?_, ?_⟩
  · intro k
    constructor
    · intro hk
      unfold keys at hk
      rcases List.mem_map.1 hk with ⟨e, he, rfl⟩
      rcases List.mem_filter.1 he with ⟨hmem, hp⟩
      exact ⟨e.2, by simpa using hmem, by simpa using hp⟩
    · rintro ⟨v, hmem, hv⟩
      unfold keys
      exact List.mem_map.2 ⟨(k, v), List.mem_filter.2 ⟨hmem, by simp [hv]⟩, rfl⟩
  · simpa [keys, dbsize] using List.length_filter_le _ st
  · constructor
    · intro h e he
      have hlen : (List.filter (fun e => !(isExpired now e.2)) st).length = st.length := by
        simpa [keys, dbsize] using h
      have := List.filter_length_eq_length.1 hlen e he
      simpa using this
    · intro h
      have hfilter : List.filter (fun e => !(isExpired now e.2)) st = st :=
        List.filter_eq_self.2 (fun e he => by simp [h e he])
      simp [keys, dbsize, hfilter]

/-- Witness for `keys_nonexpired_dbsize_raw_count` at the keyspace
`[("k", String "v")]` observed at time 0. -/
theorem keys_nonexpired_dbsize_raw_count_witness :
    (∀ k, k ∈ keys noExpiryStore 0 ↔
      ∃ v, (k, v) ∈ noExpiryStore ∧ isExpired 0 v = false) ∧
    (keys noExpiryStore 0).length ≤ dbsize noExpiryStore ∧
    ((keys noExpiryStore 0).length = dbsize noExpiryStore ↔
      ∀ e ∈ noExpiryStore, isExpired 0 e.2 = false) :=
  keys_nonexpired_dbsize_raw_count noExpiryStore 0

/-- C6 counterexample: `EXPIRE k 0` at wall-clock time 100 sets
`expires_at = 100`, and `is_expired` tests `now > expires_at` strictly, so
immediately afterwards — still at time 100 — `get` still returns the value
and `exists` is still true: the key has not disappeared with zero delay. -/
theorem expire_zero_key_still_visible :
    (expire noExpiryStore "k" 0 100).1 = true ∧
    (get (expire noExpiryStore "k" 0 100).2 "k" 100).1 = some "v" ∧
    (existsKey (expire noExpiryStore "k" 0 100).2 "k" 100).1 = true ∧
    keys (expire noExpiryStore "k" 0 100).2 100 = ["k"] := by
  decide

/-- C6 amended: for a strictly negative second count `s` (with `now + s`
not colliding with the no-expiry sentinel `-1`), `expire(k, s)` on a
present key succeeds and the key is immediately expired: at the very same
observation instant `get` misses, `exists` is false and the key is absent
from `keys`. -/
theorem expire_negative_immediately_expired (st : Store) (k : String) (v : Value)
    (s now : Int) (hnd : (st.map Prod.fst).Nodup) (hfind : findVal st k = some v)
    (hs : s < 0) (hsent : now + s ≠ -1) :
    (expire st k s now).1 = true ∧
    (get (expire st k s now).2 k now).1 = none ∧
    (existsKey (expire st k s now).2 k now).1 = false ∧
    k ∉ keys (expire st k s now).2 now := by
  have hexp : expire st k s now =
      (true, updateVal st k (fun w => { w with expires_at := now + s })) := by
    simp [expire, hfind]
  have hfind' :
      findVal (updateVal st k (fun w => { w with expires_at := now + s })) k =
        some { v with expires_at := now + s } := by
    rw [findVal_updateVal_self, hfind]
    rfl
  have hexpired : isExpired now { v with expires_at := now + s } = true := by
    simp only [isExpired]
    rw [if_neg hsent]
    simp only [decide_eq_true_eq]
    omega
  refine ⟨by simp [hexp], ?_, ?_, ?_⟩
  · simp [get, hexp, hfind', hexpired]
  · simp [existsKey, hexp, hfind', hexpired]
  · rw [hexp]
    intro hk
    unfold keys at hk
    rcases List.mem_map.1 hk with ⟨e, he, hfst⟩
    rcases List.mem_filter.1 he with ⟨hmem, hp⟩
    obtain ⟨k', w⟩ := e
    simp only at hfst
    subst hfst
    have hw : w = { v with expires_at := now + s } :=
      mem_updateVal_unique st k' _ v w hnd hfind hmem
    subst hw
    simp [hexpired] at hp

/-- Witness for `expire_negative_immediately_expired` at the keyspace
`[("k", String "v")]`, `s = -1`, observed at time 100. -/
theorem expire_negative_immediately_expired_witness :
    (expire noExpiryStore "k" (-1) 100).1 = true ∧
    (get (expire noExpiryStore "k" (-1) 100).2 "k" 100).1 = none ∧
    (existsKey (expire noExpiryStore "k" (-1) 100).2 "k" 100).1 = false ∧
    "k" ∉ keys (expire noExpiryStore "k" (-1) 100).2 100 :=
  expire_negative_immediately_expired noExpiryStore "k" ⟨.str "v", -1⟩ (-1) 100
    (by decide) (by decide) (by decide) (by decide)

/-- C7 counterexample: `PING` with one argument is answered with
`OK "PONG"`, not the invalid-args error — the `PING`, `QUIT`, `KEYS` and
`DBSIZE` branches of `Server::execute_command` carry no arity guard. -/
theorem ping_extra_args_not_rejected :
    execute_command ([] : Store) 0 ⟨.PING, ["x"]⟩ = (⟨.OK, ["PONG"]⟩, ([] : Store)) ∧
    execute_command ([] : Store) 0 ⟨.QUIT, ["x"]⟩ = (⟨.OK, ["Goodbye"]⟩, ([] : Store)) ∧
    execute_command ([] : Store) 0 ⟨.DBSIZE, ["x"]⟩ = (⟨.OK, ["0"]⟩, ([] : Store)) ∧
    (⟨.OK, ["PONG"]⟩ : Response) ≠ ⟨.INVALID_ARGS, []⟩ := by
  decide

/-- C7 amended: every command whose dispatcher branch carries an arity
guard (all 17 commands that take at least one argument; `PING`, `QUIT`,
`KEYS`, `DBSIZE` have none) answers any argument list of the wrong length
with the invalid-args response and leaves the storage untouched. -/
theorem arity_mismatch_rejected (st : Store) (now : Int) (c : CommandType) (n : Nat)
    (args : List String) (hc : checkedArity c = some n) (hn : args.length ≠ n) :
    execute_command st now ⟨c, args⟩ = (⟨.INVALID_ARGS, []⟩, st) := by
  cases c <;> simp [checkedArity] at hc <;>
    (subst hc
     rcases args with _ | ⟨a, _ | ⟨b, _ | ⟨d, _ | ⟨f, t⟩⟩⟩⟩ <;>
       simp_all [execute_command])

/-- Witness for `arity_mismatch_rejected`: `GET` with no argument. -/
theorem arity_mismatch_rejected_witness :
    execute_command ([] : Store) 0 ⟨.GET, []⟩ = (⟨.INVALID_ARGS, []⟩, ([] : Store)) :=
  arity_mismatch_rejected ([] : Store) 0 .GET 1 [] (by decide) (by decide)

/-- C8 counterexample: an OK response carrying a one-element array is
serialized as a single bulk string and an empty array as `+OK\r\n`, not in
the `*<n>` array framing the claim prescribes for every `n`. -/
theorem serialize_small_arrays_not_array_framed :
    serialize_response ⟨.OK, ["a"]⟩ = "$1\r\na\r\n" ∧
    serialize_response ⟨.OK, ([] : List String)⟩ = "+OK\r\n" ∧
    specArrayEncoding ["a"] = "*1\r\n$1\r\na\r\n" ∧
    serialize_response ⟨.OK, ["a"]⟩ ≠ specArrayEncoding ["a"] := by
  decide

/-- C8 amended: for arrays of two or more strings the serializer emits
exactly the spec's framing — `*<n>\r\n` then `$<len>\r\n<item>\r\n` per
item, every length a byte length; one-element arrays collapse to a single
bulk string and empty arrays to `+OK\r\n`. -/
theorem serialize_ok_array (v : List String) (h : 2 ≤ v.length) :
    serialize_response ⟨.OK, v⟩ = specArrayEncoding v := by
  match v with
  | [] => simp at h
  | [s] => simp at h
  | a :: b :: t => rfl

/-- Witness for `serialize_ok_array` on the two-element array
`["a", "b"]`. -/
theorem serialize_ok_array_witness :
    serialize_response ⟨.OK, ["a", "b"]⟩ = specArrayEncoding ["a", "b"] :=
  serialize_ok_array ["a", "b"] (by decide)

/-- On an empty list every `lrange` call reaches the out-of-bounds slice:
the clamped indices are both 0, the `start > stop` early return does not
fire, and the upper iterator `begin + stop + 1` lands one past a
zero-length vector. -/
theorem lrangeSliceInBounds_zero (start stop : Int) :
    lrangeSliceInBounds 0 start stop = false := by
  simp only [lrangeSliceInBounds, Nat.cast_zero]
  have hs : max 0 (min (if start < 0 then start + 0 else start) (0 - 1)) = 0 := by
    rcases lt_or_le start 0 with h | h
    · rw [if_pos h]
      omega
    · rw [if_neg (not_lt.2 h)]
      omega
  have ht : max 0 (min (if stop < 0 then stop + 0 else stop) (0 - 1)) = 0 := by
    rcases lt_or_le stop 0 with h | h
    · rw [if_pos h]
      omega
    · rw [if_neg (not_lt.2 h)]
      omega
  rw [hs, ht]
  decide

/-- C9: a key can hold an existing List with zero elements, and then every
`lrange(k, start, stop)` violates the in-bounds condition of the slice it
takes — the `std::vector` range constructor is handed `begin`..`begin + 1`
on an empty vector, an out-of-bounds read. -/
theorem lrange_empty_list_slice_out_of_bounds :
    findVal emptyListStore "e" = some ⟨.list [], -1⟩ ∧
    llen emptyListStore "e" = 0 ∧
    ∀ start stop : Int, lrangeSliceInBounds 0 start stop = false := by
  exact ⟨by decide, by decide, lrangeSliceInBounds_zero⟩

end DistKV
